import Mathlib

set_option autoImplicit false

/-!
API Gateway key rotation: the rotation Lambda and the scheduling Lambda.

Shallow embedding of `rotationLambda/index.js` and `schedulingLambda/index.js`.

The two handlers are sequential `async` functions whose only effects are calls to
three services: API Gateway (keys and usage-plan keys), DynamoDB (one table) and
Lambda (the scheduler invokes the rotation function).  The services are modelled as
an explicit `World` that is passed through the handlers.  Everything a service
decides on its own (whether a call throws, which id and value a new key gets, what
the clock reads) is an input of the handler, called an oracle below.
`console.log` / `console.error` have no effect on the world and are left out.
-/

namespace KeyRotation

/-! ## DynamoDB -/

/-- DynamoDB attribute value, as the SDK hands it to the handlers. -/
inductive AttributeValue where
  | S (s : String)
  | N (n : String)
  | BOOL (b : Bool)
  | NULL
  deriving DecidableEq

/-- JavaScript `v.S` on an attribute value: the string, or `undefined`. -/
def AttributeValue.getS : AttributeValue → Option String
  | .S s => some s
  | _ => none

/-- An item of the table: attribute name to attribute value. -/
abbrev Item := List (String × AttributeValue)

/-- JavaScript `item.name`: the attribute, or `undefined` (`none`). -/
def Item.attr : Item → String → Option AttributeValue
  | [], _ => none
  | (k, v) :: rest, name => if k = name then some v else Item.attr rest name

/-- One `name = value` action of a `SET` update expression. -/
def Item.set : Item → String → AttributeValue → Item
  | [], name, v => [(name, v)]
  | (k, x) :: rest, name, v =>
    if k = name then (k, v) :: rest else (k, x) :: Item.set rest name v

/-- The table of the stack: its items, primary key `itemID` (a string). -/
abbrev Table := List Item

/-- Whether `item` is the item with primary key `itemID`. -/
def Item.hasKey (item : Item) (itemID : String) : Bool :=
  decide (Item.attr item "itemID" = some (.S itemID))

/-- The item stored under the primary key `itemID`, if any. -/
def Table.get : Table → String → Option Item
  | [], _ => none
  | it :: rest, itemID => if Item.hasKey it itemID then some it else Table.get rest itemID

/-- The write of the rotation handler's `UpdateItemCommand`:
`SET APIGWKeyID = :newApiKeyID, APIKeyValue = :newApiKeyValue, updateTime = :updateTime`
on the item with key `itemID`.  The command carries no `ConditionExpression`, so the
item is created when the key is not in the table. -/
def Item.applyRotation (item : Item) (newApiKeyID newApiKeyValue updateTime : String) : Item :=
  Item.set (Item.set (Item.set item "APIGWKeyID" (.S newApiKeyID))
    "APIKeyValue" (.S newApiKeyValue)) "updateTime" (.S updateTime)

/-- DynamoDB `UpdateItem` for the rotation's update expression (see `Item.applyRotation`). -/
def Table.updateItem : Table → String → String → String → String → Table
  | [], itemID, k, v, t => [Item.applyRotation [("itemID", .S itemID)] k v t]
  | it :: rest, itemID, k, v, t =>
    if Item.hasKey it itemID then Item.applyRotation it k v t :: rest
    else it :: Table.updateItem rest itemID k v t

/-! ## API Gateway -/

/-- An API key held by API Gateway. -/
structure ApiKey where
  id : String
  value : String
  name : String
  enabled : Bool
  deriving DecidableEq

/-- Association of an API key with a usage plan. -/
structure UsagePlanKey where
  usagePlanId : String
  keyId : String
  keyType : String
  deriving DecidableEq

/-- State of API Gateway.  `notFoundOnDelete` fixes what `DeleteApiKey` does on an id
that is not there: `true` is API Gateway's own behaviour (the call throws
`NotFoundException`), `false` is an issuer for which deleting an absent key succeeds. -/
structure ApiGateway where
  apiKeys : List ApiKey
  usagePlanKeys : List UsagePlanKey
  notFoundOnDelete : Bool
  deriving DecidableEq

/-- Whether a key with this id exists (is not deleted). -/
def ApiGateway.hasKey (g : ApiGateway) (keyId : String) : Bool :=
  g.apiKeys.any (fun k => decide (k.id = keyId))

/-- Whether the key `keyId` is associated with the usage plan `usagePlanId`. -/
def ApiGateway.isBound (g : ApiGateway) (keyId usagePlanId : String) : Bool :=
  g.usagePlanKeys.any (fun u => decide (u.keyId = keyId) && decide (u.usagePlanId = usagePlanId))

/-- `DeleteApiKeyCommand({ apiKey })`.  `fault` is the error of a call that the
service fails for a reason of its own. -/
def ApiGateway.deleteApiKey (g : ApiGateway) (fault : Option String) (apiKey : String) :
    Except String ApiGateway :=
  match fault with
  | some e => .error e
  | none =>
    if g.hasKey apiKey then
      .ok { g with
        apiKeys := g.apiKeys.filter (fun k => !decide (k.id = apiKey))
        usagePlanKeys := g.usagePlanKeys.filter (fun u => !decide (u.keyId = apiKey)) }
    else if g.notFoundOnDelete then .error "Invalid API Key identifier specified"
    else .ok g

/-- `CreateApiKeyCommand({ enabled, generateDistinctId, name })`.  `outcome` is the
service's answer: an error, or the id and value it generated for the new key. -/
def ApiGateway.createApiKey (g : ApiGateway) (outcome : Except String (String × String))
    (enabled : Bool) (name : String) : Except String ((String × String) × ApiGateway) :=
  match outcome with
  | .error e => .error e
  | .ok (id, value) =>
    .ok ((id, value),
      { g with apiKeys := g.apiKeys ++ [{ id := id, value := value, name := name, enabled := enabled }] })

/-- `CreateUsagePlanKeyCommand({ usagePlanId, keyId, keyType })`. -/
def ApiGateway.createUsagePlanKey (g : ApiGateway) (fault : Option String)
    (usagePlanId keyId keyType : String) : Except String ApiGateway :=
  match fault with
  | some e => .error e
  | none =>
    .ok { g with
      usagePlanKeys := g.usagePlanKeys ++
        [{ usagePlanId := usagePlanId, keyId := keyId, keyType := keyType }] }

/-! ## The world -/

/-- Everything the two handlers can change. -/
structure World where
  apiGateway : ApiGateway
  table : Table
  deriving DecidableEq

/-- `UpdateItemCommand` sent by the rotation handler. -/
def World.updateItem (w : World) (fault : Option String)
    (itemID newApiKeyID newApiKeyValue updateTime : String) : Except String World :=
  match fault with
  | some e => .error e
  | none => .ok { w with table := w.table.updateItem itemID newApiKeyID newApiKeyValue updateTime }

/-! ## JavaScript values -/

/-- A value of a property of the event, as `JSON.parse` delivers it.  `number n` is a
number with an integral value (`0` and `-0` are `number 0`); `other text` is any other
value, all of them truthy: a number that is not integral, an object, an array; `text` is
what `String(x)` gives for it. -/
inductive JsValue where
  | undefined
  | null
  | bool (b : Bool)
  | number (n : Int)
  | string (s : String)
  | other (text : String)
  deriving DecidableEq

/-- JavaScript `!x`. -/
def JsValue.falsy : JsValue → Bool
  | .undefined => true
  | .null => true
  | .bool b => !b
  | .number n => decide (n = 0)
  | .string s => decide (s = "")
  | .other _ => false

/-- The values `!x` is true of, spelled out: a property that is missing, `null`,
`false`, the number `0` or the empty string. -/
def JsValue.missingOrFalsy (v : JsValue) : Prop :=
  v = .undefined ∨ v = .null ∨ v = .bool false ∨ v = .number 0 ∨ v = .string ""

/-- JavaScript `String(x)`: the text the SDK puts into a request for an identifier that
is `x`.  A string is its own text; whether a service accepts an identifier that was not
a string is, like every failure of a call, the oracle's to say. -/
def JsValue.asString : JsValue → String
  | .undefined => "undefined"
  | .null => "null"
  | .bool b => if b then "true" else "false"
  | .number n => toString n
  | .string s => s
  | .other text => text

/-- The value of a property set from `v.S`: absent when `v.S` is `undefined`
(`JSON.stringify` leaves the property out). -/
def JsValue.ofOption : Option String → JsValue
  | none => .undefined
  | some s => .string s

/-! ## rotationLambda/index.js -/

namespace RotationLambda

/-- The three properties the handler destructures from its argument.  `undefined` is a
property that is not there. -/
structure Event where
  APIGWKeyID : JsValue
  usagePlanID : JsValue
  itemID : JsValue
  deriving DecidableEq

/-- The argument `event` of the handler, as the runtime passes it (the parsed JSON
payload of the invocation): `null`, or a value whose properties can be read.  A payload
that is a number, a string, a boolean or an array has none of the three properties and
is the `object` with all three `undefined`. -/
inductive Input where
  | null
  | object (event : Event)
  deriving DecidableEq

/-- What the services decide during one run of the rotation handler. -/
structure Oracle where
  /-- error thrown by `DeleteApiKey`, if the service fails the call -/
  deleteFault : Option String
  /-- answer of `CreateApiKey`: an error, or the new key's id and value -/
  createOutcome : Except String (String × String)
  /-- error thrown by `CreateUsagePlanKey`, if any -/
  bindFault : Option String
  /-- error thrown by `UpdateItem`, if any -/
  updateFault : Option String
  /-- value of `new Date().toISOString()` at step 4 -/
  updateTime : String

/-- The object the handler passes to `JSON.stringify` for the body. -/
structure Body where
  message : String
  newApiKeyID : String
  newApiKeyValue : String
  deriving DecidableEq

/-- Value returned by a successful run. -/
structure Response where
  statusCode : Nat
  body : Body
  deriving DecidableEq

/-- A command sent to a service. -/
inductive Call where
  | deleteApiKey (apiKey : String)
  | createApiKey (enabled generateDistinctId : Bool) (name : String)
  | createUsagePlanKey (usagePlanId keyId keyType : String)
  | updateItem (itemID newApiKeyID newApiKeyValue updateTime : String)
  deriving DecidableEq

/-- Whether a command goes to API Gateway (the issuer). -/
def Call.isIssuerCall : Call → Bool
  | .updateItem _ _ _ _ => false
  | _ => true

/-- Whether a command is the registry write. -/
def Call.isUpdateItem : Call → Bool
  | .updateItem _ _ _ _ => true
  | _ => false

/-- One run of the handler: what it returns or throws, the commands it sent in order
(with `true` for a command that succeeded), the world at the start and after every
command, and the world at the end. -/
structure Run where
  result : Except String Response
  calls : List (Call × Bool)
  states : List World
  final : World

/-- Message of the `TypeError` of destructuring a `null` event. -/
def cannotDestructure : String :=
  "Cannot destructure property 'APIGWKeyID' of 'event' as it is null."

/-- Message of the error thrown by the parameter check. -/
def missingParameters : String :=
  "Missing required parameters: APIGWKeyID, usagePlanID, itemID,"

/-- Message of the error thrown by the `catch` block. -/
def rotationFailed (message : String) : String :=
  "API Key rotation failed: " ++ message

/-- The `exports.handler` of `rotationLambda/index.js`. -/
def handler (o : Oracle) (input : Input) (w0 : World) : Run :=
  match input with
  | .null =>
    -- `const { APIGWKeyID, usagePlanID, itemID } = event` throws, outside the `try`
    { result := .error cannotDestructure, calls := [], states := [w0], final := w0 }
  | .object event =>
    if event.APIGWKeyID.falsy || event.usagePlanID.falsy || event.itemID.falsy then
      { result := .error missingParameters, calls := [], states := [w0], final := w0 }
    else
      let APIGWKeyID := event.APIGWKeyID.asString
      let usagePlanID := event.usagePlanID.asString
      let itemID := event.itemID.asString
      -- Step 1: delete the old API key
      let c1 := Call.deleteApiKey APIGWKeyID
      match w0.apiGateway.deleteApiKey o.deleteFault APIGWKeyID with
      | .error e =>
        { result := .error (rotationFailed e), calls := [(c1, false)], states := [w0, w0], final := w0 }
      | .ok g1 =>
        let w1 : World := { w0 with apiGateway := g1 }
        -- Step 2: create a new API key
        let c2 := Call.createApiKey true true "RotatedAPIKey"
        match w1.apiGateway.createApiKey o.createOutcome true "RotatedAPIKey" with
        | .error e =>
          { result := .error (rotationFailed e), calls := [(c1, true), (c2, false)],
            states := [w0, w1, w1], final := w1 }
        | .ok ((newApiKeyID, newApiKeyValue), g2) =>
          let w2 : World := { w1 with apiGateway := g2 }
          -- Step 3: associate the new key with the usage plan
          let c3 := Call.createUsagePlanKey usagePlanID newApiKeyID "API_KEY"
          match w2.apiGateway.createUsagePlanKey o.bindFault usagePlanID newApiKeyID "API_KEY" with
          | .error e =>
            { result := .error (rotationFailed e), calls := [(c1, true), (c2, true), (c3, false)],
              states := [w0, w1, w2, w2], final := w2 }
          | .ok g3 =>
            let w3 : World := { w2 with apiGateway := g3 }
            -- Step 4: update the table with the new key
            let updateTime := o.updateTime
            let c4 := Call.updateItem itemID newApiKeyID newApiKeyValue updateTime
            match w3.updateItem o.updateFault itemID newApiKeyID newApiKeyValue updateTime with
            | .error e =>
              { result := .error (rotationFailed e),
                calls := [(c1, true), (c2, true), (c3, true), (c4, false)],
                states := [w0, w1, w2, w3, w3], final := w3 }
            | .ok w4 =>
              { result := .ok
                  { statusCode := 200
                    body :=
                      { message := "API Key rotation successful"
                        newApiKeyID := newApiKeyID
                        newApiKeyValue := newApiKeyValue } },
                calls := [(c1, true), (c2, true), (c3, true), (c4, true)],
                states := [w0, w1, w2, w3, w4], final := w4 }

end RotationLambda

/-! ## schedulingLambda/index.js -/

namespace SchedulingLambda

/-- Milliseconds of one day. -/
def msPerDay : Int := 86400000

/-- `new Date(now.setDate(now.getDate() - 30))` as a time value, for `now` the time
value of `new Date()`.  The Lambda runtime's local time zone is UTC, where every
calendar day has `msPerDay` milliseconds. -/
def thirtyDaysAgo (now : Int) : Int := now - 30 * msPerDay

/-- The error of reading `.S` of an attribute that is not in the item. -/
def typeErrorS : String :=
  "Cannot read properties of undefined (reading 'S')"

/-- Time value of `new Date(item.updateTime.S)` for an item that has the attribute
`updateTime`: `none` is an invalid date (`NaN`), which is what `new Date(undefined)`
and an unparsable string give.  `parseDate` is the runtime's date parser. -/
def timeValue (parseDate : String → Option Int) (v : AttributeValue) : Option Int :=
  match v.getS with
  | none => none
  | some s => parseDate s

/-- JavaScript `itemTimestamp < thirtyDaysAgo` on two dates: false when the left one is
invalid. -/
def dateLt (itemTimestamp : Option Int) (limit : Int) : Bool :=
  match itemTimestamp with
  | none => false
  | some t => decide (t < limit)

/-- The callback of `result.Items.filter`:
`item => new Date(item.updateTime.S) < thirtyDaysAgo`; it throws when the item has
no `updateTime`. -/
def olderThan (parseDate : String → Option Int) (limit : Int) (item : Item) :
    Except String Bool :=
  match Item.attr item "updateTime" with
  | none => .error typeErrorS
  | some v => .ok (dateLt (timeValue parseDate v) limit)

/-- `result.Items.filter(...)`: the callback runs on the items in order, and the first
one that throws ends the filter. -/
def filterItems (parseDate : String → Option Int) (limit : Int) :
    List Item → Except String (List Item)
  | [] => .ok []
  | item :: rest =>
    match olderThan parseDate limit item with
    | .error e => .error e
    | .ok keep =>
      match filterItems parseDate limit rest with
      | .error e => .error e
      | .ok kept => .ok (if keep then item :: kept else kept)

/-- The payload of the `InvokeCommand` for one item, before `JSON.stringify`:
`{ APIGWKeyID: item.APIGWKeyID.S, usagePlanID: item.usagePlanID.S, itemID: item.itemID.S }`.
Reading `.S` of a missing attribute throws; a field that is `undefined` is dropped by
`JSON.stringify`, so the rotation function sees an event without it. -/
def payload (item : Item) : Except String RotationLambda.Event :=
  match Item.attr item "APIGWKeyID" with
  | none => .error typeErrorS
  | some a =>
    match Item.attr item "usagePlanID" with
    | none => .error typeErrorS
    | some u =>
      match Item.attr item "itemID" with
      | none => .error typeErrorS
      | some i =>
        .ok { APIGWKeyID := .ofOption a.getS, usagePlanID := .ofOption u.getS,
              itemID := .ofOption i.getS }

/-- What the services decide for one `InvokeCommand`. -/
structure DispatchOracle where
  /-- error thrown by the `Invoke` call itself (the function was not run) -/
  invokeFault : Option String
  /-- the oracle of the rotation run that the invocation starts -/
  rotation : RotationLambda.Oracle

/-- Response of a synchronous `Invoke`. -/
structure InvokeResponse where
  statusCode : Nat
  functionError : Option String
  deriving DecidableEq

/-- Lambda `Invoke` of the rotation function (`InvocationType` is left at its default,
`RequestResponse`): the call throws only when the service fails it; an error thrown by
the rotation handler is reported in the field `FunctionError` of the response. -/
def invoke (w : World) (o : DispatchOracle) (event : RotationLambda.Event) :
    Except String (InvokeResponse × World) :=
  match o.invokeFault with
  | some e => .error e
  | none =>
    let run := RotationLambda.handler o.rotation (.object event) w
    match run.result with
    | .error _ => .ok ({ statusCode := 200, functionError := some "Unhandled" }, run.final)
    | .ok _ => .ok ({ statusCode := 200, functionError := none }, run.final)

/-- What the services decide during one run of the scheduling handler. -/
structure Oracle where
  /-- time value of `new Date()` in milliseconds -/
  now : Int
  /-- answer of the `ScanCommand`: an error, or the field `Items` of the output -/
  scanOutcome : Except String (Option (List Item))
  /-- oracle of the `n`-th `InvokeCommand` of the run, counted from 0 -/
  dispatch : Nat → DispatchOracle

/-- One run of the scheduling handler.  `result` is what the returned promise settles
to, `caught` the error that reached the `catch` block (it is logged there),
`invoked` the payloads of the `InvokeCommand`s sent, in order. -/
structure Run where
  result : Except String Unit
  caught : Option String
  invoked : List RotationLambda.Event
  final : World

/-- The loop `for (const item of itemsToProcess) { await lambdaClient.send(...) }`,
from the `n`-th invocation of the run on. -/
def dispatchLoop (dispatch : Nat → DispatchOracle) : Nat → List Item → World → Run
  | _, [], w => { result := .ok (), caught := none, invoked := [], final := w }
  | n, item :: rest, w =>
    match payload item with
    | .error e => { result := .ok (), caught := some e, invoked := [], final := w }
    | .ok event =>
      match invoke w (dispatch n) event with
      | .error e => { result := .ok (), caught := some e, invoked := [event], final := w }
      | .ok (_, w1) =>
        let r := dispatchLoop dispatch (n + 1) rest w1
        { r with invoked := event :: r.invoked }

/-- The `exports.handler` of `schedulingLambda/index.js`. -/
def handler (parseDate : String → Option Int) (o : Oracle) (w0 : World) : Run :=
  let limit := thirtyDaysAgo o.now
  match o.scanOutcome with
  | .error e => { result := .ok (), caught := some e, invoked := [], final := w0 }
  | .ok none => { result := .ok (), caught := none, invoked := [], final := w0 }
  | .ok (some items) =>
    match filterItems parseDate limit items with
    | .error e => { result := .ok (), caught := some e, invoked := [], final := w0 }
    | .ok itemsToProcess =>
      if itemsToProcess.length > 0 then dispatchLoop o.dispatch 0 itemsToProcess w0
      else { result := .ok (), caught := none, invoked := [], final := w0 }

end SchedulingLambda

/-! ## Reading the world -/

/-- The key id that the table's record for `itemID` holds in `APIGWKeyID`. -/
def World.currentKey (w : World) (itemID : String) : Option String :=
  ((w.table.get itemID).bind (fun item => Item.attr item "APIGWKeyID")).bind AttributeValue.getS

/-- The attribute `name` of the table's record for `itemID`. -/
def World.recordAttr (w : World) (itemID name : String) : Option AttributeValue :=
  (w.table.get itemID).bind (fun item => Item.attr item name)

/-- World after the four steps of a rotation that went through. -/
def RotationLambda.rotated (w0 : World) (g1 : ApiGateway) (usagePlanID itemID k v t : String) :
    World :=
  { apiGateway :=
      { g1 with
        apiKeys := g1.apiKeys ++ [{ id := k, value := v, name := "RotatedAPIKey", enabled := true }]
        usagePlanKeys := g1.usagePlanKeys ++
          [{ usagePlanId := usagePlanID, keyId := k, keyType := "API_KEY" }] }
    table := w0.table.updateItem itemID k v t }

namespace SchedulingLambda

/-- Time value of the record's `updateTime`, when the record has one that parses. -/
def lastRotatedAt (parseDate : String → Option Int) (item : Item) : Option Int :=
  (Item.attr item "updateTime").bind (timeValue parseDate)

/-- Whether the record's age at `now` is strictly more than `threshold` milliseconds. -/
def olderThanThreshold (parseDate : String → Option Int) (now threshold : Int) (item : Item) :
    Bool :=
  match lastRotatedAt parseDate item with
  | none => false
  | some t => decide (threshold < now - t)

/-- The event built from a record that has the three attributes. -/
def eventOf (item : Item) : RotationLambda.Event :=
  { APIGWKeyID := .ofOption ((Item.attr item "APIGWKeyID").bind AttributeValue.getS)
    usagePlanID := .ofOption ((Item.attr item "usagePlanID").bind AttributeValue.getS)
    itemID := .ofOption ((Item.attr item "itemID").bind AttributeValue.getS) }

/-- A record that has the attributes the dispatch loop reads. -/
def hasDispatchAttrs (item : Item) : Bool :=
  (Item.attr item "APIGWKeyID").isSome && (Item.attr item "usagePlanID").isSome &&
    (Item.attr item "itemID").isSome

end SchedulingLambda

/-! ## Concrete scenarios -/

namespace Scenario

/-- The key the stack was provisioned with. -/
def initialKey : ApiKey := { id := "K1", value := "v1", name := "cartApiKey", enabled := true }

/-- A record of the table with the given ids, key and timestamp, in the shape of
`apiKeyItem` in `index.ts`. -/
def recordOf (itemID keyID keyValue updateTime : String) : Item :=
  [("itemID", .S itemID), ("APIGWKeyID", .S keyID), ("APIKeyValue", .S keyValue),
   ("usagePlanID", .S "P1"), ("updateTime", .S updateTime)]

/-- The record of the item `i1`. -/
def record (keyID keyValue updateTime : String) : Item :=
  recordOf "i1" keyID keyValue updateTime

/-- API Gateway holding `K1`, associated with the plan `P1`. -/
def gateway (notFoundOnDelete : Bool) : ApiGateway :=
  { apiKeys := [initialKey]
    usagePlanKeys := [{ usagePlanId := "P1", keyId := "K1", keyType := "API_KEY" }]
    notFoundOnDelete := notFoundOnDelete }

/-- The stack after provisioning, with API Gateway's own `DeleteApiKey`. -/
def world : World :=
  { apiGateway := gateway true, table := [record "K1" "v1" "2024-01-01T00:00:00.000Z"] }

/-- The same stack over an issuer for which deleting an absent key succeeds. -/
def tolerantWorld : World :=
  { apiGateway := gateway false, table := [record "K1" "v1" "2024-01-01T00:00:00.000Z"] }

/-- A stack whose record already holds a newer key `K9` while `K1` is still in place. -/
def conflictWorld : World :=
  { apiGateway :=
      { apiKeys := [initialKey, { id := "K9", value := "v9", name := "RotatedAPIKey", enabled := true }]
        usagePlanKeys := [{ usagePlanId := "P1", keyId := "K1", keyType := "API_KEY" },
                          { usagePlanId := "P1", keyId := "K9", keyType := "API_KEY" }]
        notFoundOnDelete := true }
    table := [record "K9" "v9" "2024-02-20T00:00:00.000Z"] }

/-- The event the scheduler sends for the provisioned record. -/
def event : RotationLambda.Input :=
  .object { APIGWKeyID := .string "K1", usagePlanID := .string "P1", itemID := .string "i1" }

/-- Every call succeeds; the issuer creates the key `id`. -/
def allSucceed (id value updateTime : String) : RotationLambda.Oracle :=
  { deleteFault := none, createOutcome := .ok (id, value), bindFault := none,
    updateFault := none, updateTime := updateTime }

/-- The create call fails. -/
def createFails : RotationLambda.Oracle :=
  { deleteFault := none, createOutcome := .error "LimitExceededException", bindFault := none,
    updateFault := none, updateTime := "2024-03-01T00:00:00.000Z" }

/-- The create call succeeds and the bind call fails. -/
def bindFails : RotationLambda.Oracle :=
  { deleteFault := none, createOutcome := .ok ("K2", "v2"),
    bindFault := some "TooManyRequestsException",
    updateFault := none, updateTime := "2024-03-01T00:00:00.000Z" }

/-- The runtime's date parser on the timestamps of the scenarios (their time values in
milliseconds since the epoch); no other string is parsed in the scenarios. -/
def parseDate (s : String) : Option Int :=
  if s = "2024-01-01T00:00:00.000Z" then some 1704067200000
  else if s = "2024-01-10T00:00:00.000Z" then some 1704844800000
  else if s = "2024-01-31T00:00:00.000Z" then some 1706659200000
  else if s = "2024-02-20T00:00:00.000Z" then some 1708387200000
  else if s = "2024-03-01T00:00:00.000Z" then some 1709251200000
  else none

/-- A record without the attribute `updateTime`. -/
def recordWithoutTime (itemID keyID keyValue : String) : Item :=
  [("itemID", .S itemID), ("APIGWKeyID", .S keyID), ("APIKeyValue", .S keyValue),
   ("usagePlanID", .S "P1")]

/-- Every `Invoke` goes through and every rotation succeeds, the `n`-th creating the
key `N<n>`. -/
def dispatchOk (n : Nat) : SchedulingLambda.DispatchOracle :=
  { invokeFault := none
    rotation := allSucceed ("N" ++ toString n) ("n" ++ toString n) "2024-03-01T00:00:00.000Z" }

/-- The first `Invoke` call throws; the later ones would go through. -/
def firstInvokeThrows (n : Nat) : SchedulingLambda.DispatchOracle :=
  { invokeFault := if n = 0 then some "TooManyRequestsException" else none
    rotation := allSucceed ("N" ++ toString n) ("n" ++ toString n) "2024-03-01T00:00:00.000Z" }

/-- Every `Invoke` goes through, and the first rotation fails inside the function (its
create call is refused). -/
def firstRotationFails (n : Nat) : SchedulingLambda.DispatchOracle :=
  { invokeFault := none
    rotation := if n = 0 then createFails
      else allSucceed ("N" ++ toString n) ("n" ++ toString n) "2024-03-01T00:00:00.000Z" }

/-- Two keys `K1`, `K2` in place, and their two records, both last rotated on
2024-01-01. -/
def twoRecords : World :=
  { apiGateway :=
      { apiKeys := [initialKey, { id := "K2", value := "v2", name := "cartApiKey", enabled := true }]
        usagePlanKeys := [{ usagePlanId := "P1", keyId := "K1", keyType := "API_KEY" },
                          { usagePlanId := "P1", keyId := "K2", keyType := "API_KEY" }]
        notFoundOnDelete := true }
    table := [recordOf "i1" "K1" "v1" "2024-01-01T00:00:00.000Z",
              recordOf "i2" "K2" "v2" "2024-01-01T00:00:00.000Z"] }

/-- The record of `i1` last rotated on 2024-01-01 and the record of `i2` last rotated on
2024-02-20. -/
def oldAndRecent : World :=
  { twoRecords with
    table := [recordOf "i1" "K1" "v1" "2024-01-01T00:00:00.000Z",
              recordOf "i2" "K2" "v2" "2024-02-20T00:00:00.000Z"] }

/-- The record of `i1` last rotated on 2024-01-01 and a record of `i2` that has no
`updateTime`. -/
def oneWithoutTime : World :=
  { twoRecords with
    table := [recordOf "i1" "K1" "v1" "2024-01-01T00:00:00.000Z",
              recordWithoutTime "i2" "K2" "v2"] }

/-- A sweep at `now` whose scan returns the table of `w`. -/
def sweep (now : Int) (w : World) (dispatch : Nat → SchedulingLambda.DispatchOracle) :
    SchedulingLambda.Oracle :=
  { now := now, scanOutcome := .ok (some w.table), dispatch := dispatch }

/-- A sweep whose scan fails. -/
def scanFails : SchedulingLambda.Oracle :=
  { now := 1709251200000, scanOutcome := .error "ProvisionedThroughputExceededException",
    dispatch := dispatchOk }

end Scenario

end KeyRotation

/-! ## The rotation handler -/

namespace KeyRotation

section Rotation

open RotationLambda

theorem rotationFailed_ne_missingParameters (e : String) :
    rotationFailed e ≠ missingParameters := by
  intro h
  have h2 := congrArg String.data h
  simp [rotationFailed, missingParameters, String.data_append] at h2

theorem Item.attr_set_same (item : Item) (name : String) (v : AttributeValue) :
    Item.attr (Item.set item name v) name = some v := by
  induction item with
  | nil => simp [Item.set, Item.attr]
  | cons p rest ih =>
    obtain ⟨k, x⟩ := p
    by_cases hk : k = name
    · simp [Item.set, Item.attr, hk]
    · simp [Item.set, Item.attr, hk, ih]

theorem Item.attr_set_ne (item : Item) (name other : String) (v : AttributeValue)
    (h : name ≠ other) : Item.attr (Item.set item name v) other = Item.attr item other := by
  induction item with
  | nil => simp [Item.set, Item.attr, h]
  | cons p rest ih =>
    obtain ⟨k, x⟩ := p
    by_cases hk : k = name
    · subst hk; simp [Item.set, Item.attr, h]
    · by_cases hk2 : k = other
      · subst hk2; simp [Item.set, Item.attr, hk]
      · simp [Item.set, Item.attr, hk, hk2, ih]

theorem Item.attr_applyRotation_keyID (item : Item) (k v t : String) :
    Item.attr (Item.applyRotation item k v t) "APIGWKeyID" = some (.S k) := by
  unfold Item.applyRotation
  rw [Item.attr_set_ne _ _ _ _ (by decide), Item.attr_set_ne _ _ _ _ (by decide),
    Item.attr_set_same]

theorem Item.attr_applyRotation_keyValue (item : Item) (k v t : String) :
    Item.attr (Item.applyRotation item k v t) "APIKeyValue" = some (.S v) := by
  unfold Item.applyRotation
  rw [Item.attr_set_ne _ _ _ _ (by decide), Item.attr_set_same]

theorem Item.attr_applyRotation_updateTime (item : Item) (k v t : String) :
    Item.attr (Item.applyRotation item k v t) "updateTime" = some (.S t) := by
  unfold Item.applyRotation
  rw [Item.attr_set_same]

theorem Item.attr_applyRotation_other (item : Item) (k v t name : String)
    (h1 : name ≠ "APIGWKeyID") (h2 : name ≠ "APIKeyValue") (h3 : name ≠ "updateTime") :
    Item.attr (Item.applyRotation item k v t) name = Item.attr item name := by
  unfold Item.applyRotation
  rw [Item.attr_set_ne _ _ _ _ (Ne.symm h3), Item.attr_set_ne _ _ _ _ (Ne.symm h2),
    Item.attr_set_ne _ _ _ _ (Ne.symm h1)]

theorem Item.hasKey_applyRotation (item : Item) (k v t itemID : String) :
    Item.hasKey (Item.applyRotation item k v t) itemID = Item.hasKey item itemID := by
  unfold Item.hasKey
  rw [Item.attr_applyRotation_other _ _ _ _ _ (by decide) (by decide) (by decide)]

/-- After the update the table holds, under `itemID`, the rotated version of the item
that was there (or of the bare key when there was none). -/
theorem Table.get_updateItem (table : Table) (itemID k v t : String) :
    Table.get (Table.updateItem table itemID k v t) itemID =
      some (Item.applyRotation ((Table.get table itemID).getD [("itemID", .S itemID)]) k v t) := by
  induction table with
  | nil =>
    simp [Table.updateItem, Table.get, Item.hasKey_applyRotation, Item.hasKey, Item.attr]
  | cons it rest ih =>
    by_cases h : Item.hasKey it itemID = true
    · simp [Table.updateItem, Table.get, h, Item.hasKey_applyRotation]
    · simp [Table.updateItem, Table.get, h, ih]

theorem ApiGateway.hasKey_deleteApiKey (g g1 : ApiGateway) (fault : Option String)
    (apiKey : String) (h : g.deleteApiKey fault apiKey = .ok g1) :
    g1.hasKey apiKey = false := by
  unfold ApiGateway.deleteApiKey at h
  cases fault with
  | some e => simp at h
  | none =>
    by_cases hk : g.hasKey apiKey = true
    · simp only [hk, if_true] at h
      injection h with h
      subst h
      simp [ApiGateway.hasKey, List.any_filter]
    · by_cases hn : g.notFoundOnDelete = true
      · simp [hk, hn] at h
      · simp only [hk, hn] at h
        injection h with h
        subst h
        simpa using hk

theorem RotationLambda.handler_success (o : Oracle) (APIGWKeyID usagePlanID itemID : String)
    (w0 : World)
    (h1 : APIGWKeyID ≠ "") (h2 : usagePlanID ≠ "") (h3 : itemID ≠ "")
    (hall : ∀ c ∈ (handler o
        (.object ⟨.string APIGWKeyID, .string usagePlanID, .string itemID⟩) w0).calls,
      c.2 = true) :
    ∃ g1 k v, w0.apiGateway.deleteApiKey o.deleteFault APIGWKeyID = .ok g1 ∧
      o.createOutcome = .ok (k, v) ∧ o.bindFault = none ∧ o.updateFault = none ∧
      (handler o (.object ⟨.string APIGWKeyID, .string usagePlanID, .string itemID⟩) w0).result =
        .ok ⟨200, ⟨"API Key rotation successful", k, v⟩⟩ ∧
      (handler o (.object ⟨.string APIGWKeyID, .string usagePlanID, .string itemID⟩) w0).final =
        rotated w0 g1 usagePlanID itemID k v o.updateTime := by
  obtain ⟨df, co, bf, uf, ut⟩ := o
  unfold handler at hall ⊢
  simp only [JsValue.falsy, JsValue.asString, h1, h2, h3, decide_False, Bool.or_self,
    Bool.false_eq_true, if_false] at hall ⊢
  cases hd : w0.apiGateway.deleteApiKey df APIGWKeyID with
  | error e => simp [hd] at hall
  | ok g1 =>
    cases co with
    | error e => simp [hd, ApiGateway.createApiKey] at hall
    | ok kv =>
      obtain ⟨k, v⟩ := kv
      cases bf with
      | some e => simp [hd, ApiGateway.createApiKey, ApiGateway.createUsagePlanKey] at hall
      | none =>
        cases uf with
        | some e =>
          simp [hd, ApiGateway.createApiKey, ApiGateway.createUsagePlanKey, World.updateItem] at hall
        | none =>
          refine ⟨g1, k, v, rfl, rfl, rfl, rfl, ?_, ?_⟩
          · simp [ApiGateway.createApiKey, ApiGateway.createUsagePlanKey, World.updateItem]
          · simp [ApiGateway.createApiKey, ApiGateway.createUsagePlanKey, World.updateItem,
              rotated]

theorem World.currentKey_updateItem (w : World) (g : ApiGateway) (itemID k v t : String) :
    World.currentKey { apiGateway := g, table := w.table.updateItem itemID k v t } itemID
      = some k := by
  simp [World.currentKey, Table.get_updateItem, Item.attr_applyRotation_keyID,
    AttributeValue.getS]

theorem JsValue.falsy_eq_true_iff (v : JsValue) :
    v.falsy = true ↔ v.missingOrFalsy := by
  unfold JsValue.missingOrFalsy
  cases v with
  | undefined => simp [JsValue.falsy]
  | null => simp [JsValue.falsy]
  | bool b => cases b <;> simp [JsValue.falsy]
  | number n => simp [JsValue.falsy]
  | string s => simp [JsValue.falsy]
  | other t => simp [JsValue.falsy]

theorem RotationLambda.cannotDestructure_ne_missingParameters :
    cannotDestructure ≠ missingParameters := by
  decide

/-- Counterexample to C5: an event whose `APIGWKeyID` is the number `0`, with the two
other fields in place, throws the validation error although none of the three fields is
missing or empty; and the event `null`, which has none of the three fields, does not
throw the validation error but the `TypeError` of the destructuring. -/
theorem C5_counterexample :
    (handler (Scenario.allSucceed "K2" "v2" "2024-03-01T00:00:00.000Z")
      (.object ⟨.number 0, .string "P1", .string "i1"⟩) Scenario.world).result
      = .error missingParameters ∧
    (JsValue.number 0 ≠ .undefined ∧ JsValue.number 0 ≠ .string "") ∧
    (JsValue.string "P1" ≠ .undefined ∧ JsValue.string "P1" ≠ .string "") ∧
    (JsValue.string "i1" ≠ .undefined ∧ JsValue.string "i1" ≠ .string "") ∧
    (handler (Scenario.allSucceed "K2" "v2" "2024-03-01T00:00:00.000Z") .null
      Scenario.world).result = .error cannotDestructure ∧
    cannotDestructure ≠ missingParameters := by
  refine ⟨rfl, by decide, by decide, by decide, rfl, by decide⟩

/-- C5, amended: the check is JavaScript's `!x`.  The rotation handler throws the
validation error "Missing required parameters..." exactly when its event is not `null`
and one of the fields `itemID`, `APIGWKeyID`, `usagePlanID` is missing, `null`, `false`,
the number `0` or the empty string; a run that throws it has sent no command at all (no
delete, create or bind at API Gateway, no table write) and leaves the world as it was;
and the event `null` throws the `TypeError` of the destructuring instead, also without
any command sent. -/
theorem C5_validation_error_iff_falsy (o : Oracle) (input : Input) (w0 : World) :
    ((handler o input w0).result = .error missingParameters ↔
      ∃ event, input = .object event ∧
        (event.itemID.missingOrFalsy ∨ event.APIGWKeyID.missingOrFalsy ∨
          event.usagePlanID.missingOrFalsy)) ∧
    ((handler o input w0).result = .error missingParameters →
      (handler o input w0).calls = [] ∧ (handler o input w0).states = [w0] ∧
      (handler o input w0).final = w0) ∧
    (input = .null →
      (handler o input w0).result = .error cannotDestructure ∧
      (handler o input w0).calls = [] ∧ (handler o input w0).states = [w0] ∧
      (handler o input w0).final = w0) := by
  cases input with
  | null =>
    have hne := cannotDestructure_ne_missingParameters
    refine ⟨?_, ?_, fun _ => ⟨rfl, rfl, rfl, rfl⟩⟩
    · constructor
      · intro h
        simp only [handler] at h
        injection h with h
        exact absurd h hne
      · rintro ⟨event, h, -⟩
        cases h
    · intro h
      simp only [handler] at h
      injection h with h
      exact absurd h hne
  | object event =>
    have key : (handler o (.object event) w0).result = .error missingParameters ↔
        (event.APIGWKeyID.falsy || event.usagePlanID.falsy || event.itemID.falsy) = true := by
      unfold handler
      by_cases hc : (event.APIGWKeyID.falsy || event.usagePlanID.falsy || event.itemID.falsy)
          = true
      · simp [hc]
      · have hne := rotationFailed_ne_missingParameters
        obtain ⟨df, co, bf, uf, ut⟩ := o
        simp only [hc, Bool.false_eq_true, if_false, iff_false]
        cases hd : w0.apiGateway.deleteApiKey df event.APIGWKeyID.asString with
        | error e => simp [hne]
        | ok g1 =>
          cases co with
          | error e => simp [ApiGateway.createApiKey, hne]
          | ok kv =>
            cases bf with
            | some e => simp [ApiGateway.createApiKey, ApiGateway.createUsagePlanKey, hne]
            | none =>
              cases uf with
              | some e =>
                simp [ApiGateway.createApiKey, ApiGateway.createUsagePlanKey,
                  World.updateItem, hne]
              | none =>
                simp [ApiGateway.createApiKey, ApiGateway.createUsagePlanKey,
                  World.updateItem]
    refine ⟨?_, ?_, fun h => by cases h⟩
    · rw [key]
      simp only [Bool.or_eq_true, JsValue.falsy_eq_true_iff]
      constructor
      · intro h
        exact ⟨event, rfl, by tauto⟩
      · rintro ⟨ev, hev, h⟩
        cases hev
        tauto
    · intro h
      rw [key] at h
      unfold handler
      simp [h]

theorem Table.get_hasKey (table : Table) (itemID : String) (item : Item)
    (h : Table.get table itemID = some item) : Item.hasKey item itemID = true := by
  induction table with
  | nil => simp [Table.get] at h
  | cons it rest ih =>
    by_cases hk : Item.hasKey it itemID = true
    · simp [Table.get, hk] at h
      subst h
      exact hk
    · simp [Table.get, hk] at h
      exact ih h

theorem RotationLambda.all_succeed_of_update (o : Oracle) (APIGWKeyID usagePlanID itemID : String)
    (w0 : World) (h1 : APIGWKeyID ≠ "") (h2 : usagePlanID ≠ "") (h3 : itemID ≠ "")
    (hupd : ∃ c ∈ (handler o
        (.object ⟨.string APIGWKeyID, .string usagePlanID, .string itemID⟩) w0).calls,
      c.1.isUpdateItem = true ∧ c.2 = true) :
    ∀ c ∈ (handler o
        (.object ⟨.string APIGWKeyID, .string usagePlanID, .string itemID⟩) w0).calls, c.2 = true := by
  obtain ⟨df, co, bf, uf, ut⟩ := o
  unfold handler at hupd ⊢
  simp only [JsValue.falsy, JsValue.asString, h1, h2, h3, decide_False, Bool.or_self,
    Bool.false_eq_true, if_false] at hupd ⊢
  cases hd : w0.apiGateway.deleteApiKey df APIGWKeyID with
  | error e => simp [hd, Call.isUpdateItem] at hupd
  | ok g1 =>
    cases co with
    | error e => simp [hd, ApiGateway.createApiKey, Call.isUpdateItem] at hupd
    | ok kv =>
      cases bf with
      | some e =>
        simp [hd, ApiGateway.createApiKey, ApiGateway.createUsagePlanKey, Call.isUpdateItem] at hupd
      | none =>
        cases uf with
        | some e =>
          simp [hd, ApiGateway.createApiKey, ApiGateway.createUsagePlanKey, World.updateItem,
            Call.isUpdateItem] at hupd
        | none =>
          simp [ApiGateway.createApiKey, ApiGateway.createUsagePlanKey, World.updateItem]

/-- C6: when the create call fails, or the create succeeds and the bind call fails, no
`UpdateItem` is sent, the table is in every state of the run (the last one included) what
it was before, and the handler throws. -/
theorem C6_issuer_failure_leaves_table (o : Oracle) (APIGWKeyID usagePlanID itemID : String)
    (w0 : World) (h1 : APIGWKeyID ≠ "") (h2 : usagePlanID ≠ "") (h3 : itemID ≠ "")
    (hfail :
      (Call.createApiKey true true "RotatedAPIKey", false) ∈
          (handler o (.object ⟨.string APIGWKeyID, .string usagePlanID, .string itemID⟩) w0).calls ∨
      ((Call.createApiKey true true "RotatedAPIKey", true) ∈
          (handler o (.object ⟨.string APIGWKeyID, .string usagePlanID, .string itemID⟩) w0).calls ∧
        ∃ keyId, (Call.createUsagePlanKey usagePlanID keyId "API_KEY", false) ∈
          (handler o
              (.object ⟨.string APIGWKeyID, .string usagePlanID, .string itemID⟩) w0).calls)) :
    (handler o
        (.object ⟨.string APIGWKeyID, .string usagePlanID, .string itemID⟩) w0).final.table = w0.table ∧
    (∀ w ∈ (handler o
        (.object ⟨.string APIGWKeyID, .string usagePlanID, .string itemID⟩) w0).states,
      w.table = w0.table) ∧
    (∀ c ∈ (handler o (.object ⟨.string APIGWKeyID, .string usagePlanID, .string itemID⟩) w0).calls,
      c.1.isUpdateItem = false) ∧
    ∃ e, (handler o (.object ⟨.string APIGWKeyID, .string usagePlanID, .string itemID⟩) w0).result =
      .error (rotationFailed e) := by
  obtain ⟨df, co, bf, uf, ut⟩ := o
  unfold handler at hfail ⊢
  simp only [JsValue.falsy, JsValue.asString, h1, h2, h3, decide_False, Bool.or_self,
    Bool.false_eq_true, if_false] at hfail ⊢
  cases hd : w0.apiGateway.deleteApiKey df APIGWKeyID with
  | error e => simp [hd] at hfail
  | ok g1 =>
    cases co with
    | error e => simp [ApiGateway.createApiKey, Call.isUpdateItem]
    | ok kv =>
      cases bf with
      | some e =>
        simp [ApiGateway.createApiKey, ApiGateway.createUsagePlanKey, Call.isUpdateItem]
      | none =>
        cases uf with
        | some e =>
          simp [hd, ApiGateway.createApiKey, ApiGateway.createUsagePlanKey, World.updateItem]
            at hfail
        | none =>
          simp [hd, ApiGateway.createApiKey, ApiGateway.createUsagePlanKey, World.updateItem]
            at hfail

/-- C9: a rotation with valid inputs in which every call succeeds (the issuer handing out
an id other than the old key's) ends with the table's record for `itemID` holding the id
and the value of the key created in this run and the run's timestamp, with `itemID` and
`usagePlanID` as before, with the new key in place and associated with `usagePlanID`,
the old key deleted, and the handler returning status 200 with the new id and value. -/
theorem C9_successful_rotation (o : Oracle) (APIGWKeyID usagePlanID itemID : String)
    (w0 : World) (h1 : APIGWKeyID ≠ "") (h2 : usagePlanID ≠ "") (h3 : itemID ≠ "")
    (hall : ∀ c ∈ (handler o
        (.object ⟨.string APIGWKeyID, .string usagePlanID, .string itemID⟩) w0).calls,
      c.2 = true)
    (hfresh : ∀ k v, o.createOutcome = .ok (k, v) → k ≠ APIGWKeyID) :
    ∃ k v, o.createOutcome = .ok (k, v) ∧
      ((handler o
          (.object ⟨.string APIGWKeyID, .string usagePlanID, .string itemID⟩) w0).final.recordAttr itemID
        "APIGWKeyID" = some (.S k)) ∧
      ((handler o
          (.object ⟨.string APIGWKeyID, .string usagePlanID, .string itemID⟩) w0).final.recordAttr itemID
        "APIKeyValue" = some (.S v)) ∧
      ((handler o
          (.object ⟨.string APIGWKeyID, .string usagePlanID, .string itemID⟩) w0).final.recordAttr itemID
        "updateTime" = some (.S o.updateTime)) ∧
      ((handler o
          (.object ⟨.string APIGWKeyID, .string usagePlanID, .string itemID⟩) w0).final.recordAttr itemID
        "itemID" = some (.S itemID)) ∧
      ((handler o
          (.object ⟨.string APIGWKeyID, .string usagePlanID, .string itemID⟩) w0).final.recordAttr itemID
        "usagePlanID" = w0.recordAttr itemID "usagePlanID") ∧
      (handler o
          (.object ⟨.string APIGWKeyID, .string usagePlanID, .string itemID⟩) w0).final.apiGateway.hasKey k
        = true ∧
      (handler o
          (.object ⟨.string APIGWKeyID, .string usagePlanID, .string itemID⟩) w0).final.apiGateway.isBound k
        usagePlanID = true ∧
      (handler o
          (.object ⟨.string APIGWKeyID, .string usagePlanID, .string itemID⟩) w0).final.apiGateway.hasKey
        APIGWKeyID = false ∧
      (handler o (.object ⟨.string APIGWKeyID, .string usagePlanID, .string itemID⟩) w0).result =
        .ok ⟨200, ⟨"API Key rotation successful", k, v⟩⟩ := by
  obtain ⟨g1, k, v, hd, hco, -, -, hres, hfin⟩ :=
    handler_success o APIGWKeyID usagePlanID itemID w0 h1 h2 h3 hall
  have hne : k ≠ APIGWKeyID := hfresh k v hco
  have hdel := ApiGateway.hasKey_deleteApiKey _ _ _ _ hd
  refine ⟨k, v, hco, ?_, ?_, ?_, ?_, ?_, ?_, ?_, ?_, hres⟩
  · rw [hfin]; simp [rotated, World.recordAttr, Table.get_updateItem,
      Item.attr_applyRotation_keyID]
  · rw [hfin]; simp [rotated, World.recordAttr, Table.get_updateItem,
      Item.attr_applyRotation_keyValue]
  · rw [hfin]; simp [rotated, World.recordAttr, Table.get_updateItem,
      Item.attr_applyRotation_updateTime]
  · rw [hfin]
    simp only [rotated, World.recordAttr, Table.get_updateItem, Option.some_bind]
    rw [Item.attr_applyRotation_other _ _ _ _ "itemID" (by decide) (by decide) (by decide)]
    cases hg : Table.get w0.table itemID with
    | none => simp [Item.attr]
    | some item =>
      have := Table.get_hasKey _ _ _ hg
      simpa [Item.hasKey] using this
  · rw [hfin]
    simp only [rotated, World.recordAttr, Table.get_updateItem, Option.some_bind]
    rw [Item.attr_applyRotation_other _ _ _ _ "usagePlanID" (by decide) (by decide) (by decide)]
    cases hg : Table.get w0.table itemID with
    | none => simp [Item.attr]
    | some item => simp
  · rw [hfin]; simp [rotated, ApiGateway.hasKey]
  · rw [hfin]; simp [rotated, ApiGateway.isBound]
  · rw [hfin]
    simp only [rotated, ApiGateway.hasKey, List.any_append] at hdel ⊢
    simp [hdel, hne]

/-- Witness of C6 (the bind call fails after a successful create). -/
theorem C6_issuer_failure_leaves_table_witness :
    (handler Scenario.bindFails
        (.object ⟨.string "K1", .string "P1", .string "i1"⟩) Scenario.world).final.table
        = Scenario.world.table ∧
    (∀ w ∈ (handler Scenario.bindFails
        (.object ⟨.string "K1", .string "P1", .string "i1"⟩) Scenario.world).states,
      w.table = Scenario.world.table) ∧
    (∀ c ∈ (handler Scenario.bindFails
        (.object ⟨.string "K1", .string "P1", .string "i1"⟩) Scenario.world).calls,
      c.1.isUpdateItem = false) ∧
    ∃ e, (handler Scenario.bindFails
        (.object ⟨.string "K1", .string "P1", .string "i1"⟩) Scenario.world).result =
      .error (rotationFailed e) :=
  C6_issuer_failure_leaves_table Scenario.bindFails "K1" "P1" "i1" Scenario.world
    (by decide) (by decide) (by decide) (Or.inr ⟨by decide, "K2", by decide⟩)

/-- Witness of C9: the provisioned stack, rotated to the key `K2`. -/
theorem C9_successful_rotation_witness :
    ∃ k v, (Scenario.allSucceed "K2" "v2" "2024-03-01T00:00:00.000Z").createOutcome = .ok (k, v) ∧
      ((handler (Scenario.allSucceed "K2" "v2" "2024-03-01T00:00:00.000Z")
        (.object ⟨.string "K1", .string "P1", .string "i1"⟩) Scenario.world).final.recordAttr "i1"
        "APIGWKeyID" = some (.S k)) ∧
      ((handler (Scenario.allSucceed "K2" "v2" "2024-03-01T00:00:00.000Z")
        (.object ⟨.string "K1", .string "P1", .string "i1"⟩) Scenario.world).final.recordAttr "i1"
        "APIKeyValue" = some (.S v)) ∧
      ((handler (Scenario.allSucceed "K2" "v2" "2024-03-01T00:00:00.000Z")
        (.object ⟨.string "K1", .string "P1", .string "i1"⟩) Scenario.world).final.recordAttr "i1"
        "updateTime" =
          some (.S (Scenario.allSucceed "K2" "v2" "2024-03-01T00:00:00.000Z").updateTime)) ∧
      ((handler (Scenario.allSucceed "K2" "v2" "2024-03-01T00:00:00.000Z")
        (.object ⟨.string "K1", .string "P1", .string "i1"⟩) Scenario.world).final.recordAttr "i1"
        "itemID" = some (.S "i1")) ∧
      ((handler (Scenario.allSucceed "K2" "v2" "2024-03-01T00:00:00.000Z")
        (.object ⟨.string "K1", .string "P1", .string "i1"⟩) Scenario.world).final.recordAttr "i1"
        "usagePlanID" = Scenario.world.recordAttr "i1" "usagePlanID") ∧
      (handler (Scenario.allSucceed "K2" "v2" "2024-03-01T00:00:00.000Z")
       
            (.object ⟨.string "K1", .string "P1", .string "i1"⟩) Scenario.world).final.apiGateway.hasKey k = true ∧
      (handler (Scenario.allSucceed "K2" "v2" "2024-03-01T00:00:00.000Z")
       
            (.object ⟨.string "K1", .string "P1", .string "i1"⟩) Scenario.world).final.apiGateway.isBound k "P1"
        = true ∧
      (handler (Scenario.allSucceed "K2" "v2" "2024-03-01T00:00:00.000Z")
       
            (.object ⟨.string "K1", .string "P1", .string "i1"⟩) Scenario.world).final.apiGateway.hasKey "K1"
        = false ∧
      (handler (Scenario.allSucceed "K2" "v2" "2024-03-01T00:00:00.000Z")
        (.object ⟨.string "K1", .string "P1", .string "i1"⟩) Scenario.world).result =
        .ok ⟨200, ⟨"API Key rotation successful", k, v⟩⟩ :=
  C9_successful_rotation (Scenario.allSucceed "K2" "v2" "2024-03-01T00:00:00.000Z")
    "K1" "P1" "i1" Scenario.world (by decide) (by decide) (by decide) (by decide)
    (by intro k v h; cases h; decide)

/-- Counterexample to C1: on the provisioned stack, with every call succeeding, the
record for `i1` points at `K1` in the three states between the delete and the table
update, and `K1` is deleted in all three; when the create call fails the run even ends
in such a state. -/
theorem C1_counterexample :
    ((handler (Scenario.allSucceed "K2" "v2" "2024-03-01T00:00:00.000Z") Scenario.event
        Scenario.world).states.map
      (fun w => (w.currentKey "i1", w.apiGateway.hasKey "K1"))
      = [(some "K1", true), (some "K1", false), (some "K1", false), (some "K1", false),
         (some "K2", false)]) ∧
    (handler Scenario.createFails Scenario.event Scenario.world).final.currentKey "i1"
      = some "K1" ∧
    (handler Scenario.createFails Scenario.event Scenario.world).final.apiGateway.hasKey "K1"
      = false := by
  decide

/-- C1, amended: the old key is deleted first.  In a run with valid inputs whose delete
call succeeds (the record pointing at the old key, the issuer handing out another id),
the old key is deleted in every state after the first call, and the record points at it
in every state but the last, which is the state the run ends in; a run that fails ends
with the record still pointing at the old key, and the old key deleted; a run that
succeeds ends with the record pointing at the new key, which is in place and associated
with `usagePlanID`. -/
theorem C1_old_key_deleted_first (o : Oracle) (APIGWKeyID usagePlanID itemID : String)
    (w0 : World) (h1 : APIGWKeyID ≠ "") (h2 : usagePlanID ≠ "") (h3 : itemID ≠ "")
    (hrec : w0.currentKey itemID = some APIGWKeyID)
    (hdel : (Call.deleteApiKey APIGWKeyID, true) ∈
      (handler o (.object ⟨.string APIGWKeyID, .string usagePlanID, .string itemID⟩) w0).calls)
    (hfresh : ∀ k v, o.createOutcome = .ok (k, v) → k ≠ APIGWKeyID) :
    (∀ w ∈ (handler o
        (.object ⟨.string APIGWKeyID, .string usagePlanID, .string itemID⟩) w0).states.tail,
      w.apiGateway.hasKey APIGWKeyID = false) ∧
    (∀ w ∈ (handler o
        (.object ⟨.string APIGWKeyID, .string usagePlanID, .string itemID⟩) w0).states.dropLast,
      w.currentKey itemID = some APIGWKeyID) ∧
    ((handler o
        (.object ⟨.string APIGWKeyID, .string usagePlanID, .string itemID⟩) w0).states.getLast? =
      some (handler o
          (.object ⟨.string APIGWKeyID, .string usagePlanID, .string itemID⟩) w0).final) ∧
    (∀ e, (handler o
        (.object ⟨.string APIGWKeyID, .string usagePlanID, .string itemID⟩) w0).result = .error e →
      (handler o
          (.object ⟨.string APIGWKeyID, .string usagePlanID, .string itemID⟩) w0).final.currentKey itemID
        = some APIGWKeyID ∧
      (handler o
          (.object ⟨.string APIGWKeyID, .string usagePlanID, .string itemID⟩) w0).final.apiGateway.hasKey
        APIGWKeyID = false) ∧
    (∀ r, (handler o
        (.object ⟨.string APIGWKeyID, .string usagePlanID, .string itemID⟩) w0).result = .ok r →
      ∃ k v, o.createOutcome = .ok (k, v) ∧
        (handler o
            (.object ⟨.string APIGWKeyID, .string usagePlanID, .string itemID⟩) w0).final.currentKey itemID
          = some k ∧
        (handler o
            (.object ⟨.string APIGWKeyID, .string usagePlanID, .string itemID⟩) w0).final.apiGateway.hasKey k
          = true ∧
        (handler o
            (.object ⟨.string APIGWKeyID, .string usagePlanID, .string itemID⟩) w0).final.apiGateway.isBound
          k usagePlanID = true) := by
  obtain ⟨df, co, bf, uf, ut⟩ := o
  have hcur : ∀ g : ApiGateway,
      World.currentKey { apiGateway := g, table := w0.table } itemID = some APIGWKeyID := by
    intro g; simpa [World.currentKey] using hrec
  unfold handler at hdel ⊢
  simp only [JsValue.falsy, JsValue.asString, h1, h2, h3, decide_False, Bool.or_self,
    Bool.false_eq_true, if_false] at hdel ⊢
  cases hd : w0.apiGateway.deleteApiKey df APIGWKeyID with
  | error e => simp [hd] at hdel
  | ok g1 =>
    have hgone := ApiGateway.hasKey_deleteApiKey _ _ _ _ hd
    cases co with
    | error e => simp [ApiGateway.createApiKey, hgone, hcur, hrec]
    | ok kv =>
      obtain ⟨k, v⟩ := kv
      have hne : k ≠ APIGWKeyID := hfresh k v rfl
      have hgone2 : ∀ u : List UsagePlanKey, ApiGateway.hasKey
          { apiKeys := g1.apiKeys ++ [{ id := k, value := v, name := "RotatedAPIKey", enabled := true }],
            usagePlanKeys := u, notFoundOnDelete := g1.notFoundOnDelete } APIGWKeyID = false := by
        intro u
        simp only [ApiGateway.hasKey, List.any_append] at hgone ⊢
        simp [hgone, hne]
      cases bf with
      | some e =>
        simp [ApiGateway.createApiKey, ApiGateway.createUsagePlanKey, hgone, hgone2, hcur, hrec]
      | none =>
        cases uf with
        | some e =>
          simp [ApiGateway.createApiKey, ApiGateway.createUsagePlanKey, World.updateItem,
            hgone, hgone2, hcur, hrec]
        | none =>
          simp [ApiGateway.createApiKey, ApiGateway.createUsagePlanKey, World.updateItem,
            hgone, hgone2, hcur, hrec, World.currentKey_updateItem, List.dropLast]
          simp [ApiGateway.hasKey, ApiGateway.isBound]

/-- Witness of C1 (amended): on the provisioned stack the create call fails; the run
ends in its last state, with the record of `i1` pointing at `K1` and `K1` deleted. -/
theorem C1_old_key_deleted_first_witness :
    (handler Scenario.createFails Scenario.event Scenario.world).states.getLast? =
      some (handler Scenario.createFails Scenario.event Scenario.world).final ∧
    (handler Scenario.createFails Scenario.event Scenario.world).final.currentKey "i1"
      = some "K1" ∧
    (handler Scenario.createFails Scenario.event Scenario.world).final.apiGateway.hasKey "K1"
      = false :=
  ⟨(C1_old_key_deleted_first Scenario.createFails "K1" "P1" "i1" Scenario.world
      (by decide) (by decide) (by decide) (by decide) (by decide)
      (by intro k v h; cases h)).2.2.1,
   (C1_old_key_deleted_first Scenario.createFails "K1" "P1" "i1" Scenario.world
      (by decide) (by decide) (by decide) (by decide) (by decide)
      (by intro k v h; cases h)).2.2.2.1 _ rfl⟩

/-- Counterexample to C2: the record for `i1` holds the newer key `K9`, the event expects
`K1`, and every call succeeds.  The record is overwritten with the key `K2` created by
the run, and `K2` stays in place at the issuer. -/
theorem C2_counterexample :
    Scenario.conflictWorld.currentKey "i1" = some "K9" ∧
    Scenario.event = .object ⟨.string "K1", .string "P1", .string "i1"⟩ ∧
    (handler (Scenario.allSucceed "K2" "v2" "2024-03-01T00:00:00.000Z") Scenario.event
      Scenario.conflictWorld).final.table
      = [Scenario.record "K2" "v2" "2024-03-01T00:00:00.000Z"] ∧
    (handler (Scenario.allSucceed "K2" "v2" "2024-03-01T00:00:00.000Z") Scenario.event
      Scenario.conflictWorld).final.table ≠ Scenario.conflictWorld.table ∧
    (handler (Scenario.allSucceed "K2" "v2" "2024-03-01T00:00:00.000Z") Scenario.event
      Scenario.conflictWorld).final.apiGateway.hasKey "K2" = true := by
  decide

/-- C2, amended: the table update carries no condition.  In a run with valid inputs in
which every call succeeds and the record for `itemID` holds, at the moment of the update,
a key `stored` other than the expected one (the issuer handing out an id other than
`stored`), the record is not left as it was: it is overwritten with the id and value of
the key created in this run and with the run's timestamp, and the created key stays in
place at the issuer, associated with `usagePlanID`. -/
theorem C2_update_is_unconditional (o : Oracle) (APIGWKeyID usagePlanID itemID : String)
    (w0 : World) (stored : String)
    (h1 : APIGWKeyID ≠ "") (h2 : usagePlanID ≠ "") (h3 : itemID ≠ "")
    (hstored : w0.currentKey itemID = some stored) (_hdiff : stored ≠ APIGWKeyID)
    (hall : ∀ c ∈ (handler o
        (.object ⟨.string APIGWKeyID, .string usagePlanID, .string itemID⟩) w0).calls,
      c.2 = true)
    (hfresh : ∀ k v, o.createOutcome = .ok (k, v) → k ≠ stored) :
    ∃ k v, o.createOutcome = .ok (k, v) ∧
      (handler o
          (.object ⟨.string APIGWKeyID, .string usagePlanID, .string itemID⟩) w0).final.table =
        w0.table.updateItem itemID k v o.updateTime ∧
      (handler o
          (.object ⟨.string APIGWKeyID, .string usagePlanID, .string itemID⟩) w0).final.currentKey itemID
        ≠ w0.currentKey itemID ∧
      (handler o
          (.object ⟨.string APIGWKeyID, .string usagePlanID, .string itemID⟩) w0).final.currentKey itemID
        = some k ∧
      ((handler o
          (.object ⟨.string APIGWKeyID, .string usagePlanID, .string itemID⟩) w0).final.recordAttr itemID
        "APIKeyValue" = some (.S v)) ∧
      ((handler o
          (.object ⟨.string APIGWKeyID, .string usagePlanID, .string itemID⟩) w0).final.recordAttr itemID
        "updateTime" = some (.S o.updateTime)) ∧
      (handler o
          (.object ⟨.string APIGWKeyID, .string usagePlanID, .string itemID⟩) w0).final.apiGateway.hasKey k
        = true ∧
      (handler o
          (.object ⟨.string APIGWKeyID, .string usagePlanID, .string itemID⟩) w0).final.apiGateway.isBound k
        usagePlanID = true := by
  obtain ⟨g1, k, v, -, hco, -, -, -, hfin⟩ :=
    handler_success o APIGWKeyID usagePlanID itemID w0 h1 h2 h3 hall
  have hcur := World.currentKey_updateItem w0 (rotated w0 g1 usagePlanID itemID k v
    o.updateTime).apiGateway itemID k v o.updateTime
  refine ⟨k, v, hco, ?_, ?_, ?_, ?_, ?_, ?_, ?_⟩
  · rw [hfin]; rfl
  · rw [hfin, hstored]
    intro h
    have h2 : some k = some stored := hcur.symm.trans h
    exact hfresh k v hco (Option.some.inj h2)
  · rw [hfin]; exact hcur
  · rw [hfin]; simp [rotated, World.recordAttr, Table.get_updateItem,
      Item.attr_applyRotation_keyValue]
  · rw [hfin]; simp [rotated, World.recordAttr, Table.get_updateItem,
      Item.attr_applyRotation_updateTime]
  · rw [hfin]; simp [rotated, ApiGateway.hasKey]
  · rw [hfin]; simp [rotated, ApiGateway.isBound]

/-- Witness of C2 (amended): the record holds `K9`, the event expects `K1`. -/
theorem C2_update_is_unconditional_witness :
    ∃ k v, (Scenario.allSucceed "K2" "v2" "2024-03-01T00:00:00.000Z").createOutcome = .ok (k, v) ∧
      (handler (Scenario.allSucceed "K2" "v2" "2024-03-01T00:00:00.000Z")
        (.object ⟨.string "K1", .string "P1", .string "i1"⟩) Scenario.conflictWorld).final.table =
        Scenario.conflictWorld.table.updateItem "i1" k v
          (Scenario.allSucceed "K2" "v2" "2024-03-01T00:00:00.000Z").updateTime ∧
      (handler (Scenario.allSucceed "K2" "v2" "2024-03-01T00:00:00.000Z")
       
            (.object ⟨.string "K1", .string "P1", .string "i1"⟩) Scenario.conflictWorld).final.currentKey "i1"
        ≠ Scenario.conflictWorld.currentKey "i1" ∧
      (handler (Scenario.allSucceed "K2" "v2" "2024-03-01T00:00:00.000Z")
       
            (.object ⟨.string "K1", .string "P1", .string "i1"⟩) Scenario.conflictWorld).final.currentKey "i1"
        = some k ∧
      ((handler (Scenario.allSucceed "K2" "v2" "2024-03-01T00:00:00.000Z")
       
            (.object ⟨.string "K1", .string "P1", .string "i1"⟩) Scenario.conflictWorld).final.recordAttr "i1"
        "APIKeyValue" = some (.S v)) ∧
      ((handler (Scenario.allSucceed "K2" "v2" "2024-03-01T00:00:00.000Z")
       
            (.object ⟨.string "K1", .string "P1", .string "i1"⟩) Scenario.conflictWorld).final.recordAttr "i1"
        "updateTime" =
          some (.S (Scenario.allSucceed "K2" "v2" "2024-03-01T00:00:00.000Z").updateTime)) ∧
      (handler (Scenario.allSucceed "K2" "v2" "2024-03-01T00:00:00.000Z")
       
            (.object ⟨.string "K1", .string "P1", .string "i1"⟩) Scenario.conflictWorld).final.apiGateway.hasKey k
        = true ∧
      (handler (Scenario.allSucceed "K2" "v2" "2024-03-01T00:00:00.000Z")
       
            (.object ⟨.string "K1", .string "P1", .string "i1"⟩) Scenario.conflictWorld).final.apiGateway.isBound k
        "P1" = true :=
  C2_update_is_unconditional (Scenario.allSucceed "K2" "v2" "2024-03-01T00:00:00.000Z")
    "K1" "P1" "i1" Scenario.conflictWorld "K9" (by decide) (by decide) (by decide)
    (by decide) (by decide) (by decide) (by intro k v h; cases h; decide)

/-- Counterexample to C7: over an issuer for which deleting an absent key succeeds, the
rotation is run twice with the same event and every call succeeds.  Both runs send a
successful `UpdateItem`, and the record changes twice: `K1`, then `K2`, then `K3`. -/
theorem C7_counterexample :
    Scenario.tolerantWorld.apiGateway.notFoundOnDelete = false ∧
    Scenario.tolerantWorld.currentKey "i1" = some "K1" ∧
    (handler (Scenario.allSucceed "K2" "v2" "2024-03-01T00:00:00.000Z") Scenario.event
      Scenario.tolerantWorld).final.currentKey "i1" = some "K2" ∧
    (handler (Scenario.allSucceed "K3" "v3" "2024-03-01T00:00:05.000Z") Scenario.event
      (handler (Scenario.allSucceed "K2" "v2" "2024-03-01T00:00:00.000Z") Scenario.event
        Scenario.tolerantWorld).final).final.currentKey "i1" = some "K3" ∧
    (Call.updateItem "i1" "K3" "v3" "2024-03-01T00:00:05.000Z", true) ∈
      (handler (Scenario.allSucceed "K3" "v3" "2024-03-01T00:00:05.000Z") Scenario.event
        (handler (Scenario.allSucceed "K2" "v2" "2024-03-01T00:00:00.000Z") Scenario.event
          Scenario.tolerantWorld).final).calls := by
  decide

/-- C7, amended: whether a second run with the same arguments writes the record again is
decided by the issuer's delete.  After a first run that updated the record (the issuer
having handed out an id other than the old key's): with API Gateway's own `DeleteApiKey`,
which rejects an absent key, the second run fails at its first step (the failed delete
of the old key is the only command it sends), throws, sends no `UpdateItem` and leaves
the world, the table included, as the first run left it; with an issuer for which
deleting an absent key succeeds, a second run whose calls the services do not fail sends
a successful `UpdateItem` and the record then holds the key created by the second run. -/
theorem C7_second_run (o1 o2 : Oracle) (APIGWKeyID usagePlanID itemID : String)
    (w0 : World) (h1 : APIGWKeyID ≠ "") (h2 : usagePlanID ≠ "") (h3 : itemID ≠ "")
    (hfirst : ∃ c ∈ (handler o1
        (.object ⟨.string APIGWKeyID, .string usagePlanID, .string itemID⟩) w0).calls,
      c.1.isUpdateItem = true ∧ c.2 = true)
    (hfresh : ∀ k v, o1.createOutcome = .ok (k, v) → k ≠ APIGWKeyID) :
    (w0.apiGateway.notFoundOnDelete = true →
      (handler o2 (.object ⟨.string APIGWKeyID, .string usagePlanID, .string itemID⟩)
          (handler o1
              (.object ⟨.string APIGWKeyID, .string usagePlanID, .string itemID⟩) w0).final).calls
        = [(Call.deleteApiKey APIGWKeyID, false)] ∧
      (∃ e, (handler o2 (.object ⟨.string APIGWKeyID, .string usagePlanID, .string itemID⟩)
          (handler o1
              (.object ⟨.string APIGWKeyID, .string usagePlanID, .string itemID⟩) w0).final).result
          = .error (rotationFailed e)) ∧
      (∀ c ∈ (handler o2 (.object ⟨.string APIGWKeyID, .string usagePlanID, .string itemID⟩)
          (handler o1
              (.object ⟨.string APIGWKeyID, .string usagePlanID, .string itemID⟩) w0).final).calls,
        c.1.isUpdateItem = false) ∧
      (handler o2 (.object ⟨.string APIGWKeyID, .string usagePlanID, .string itemID⟩)
          (handler o1
              (.object ⟨.string APIGWKeyID, .string usagePlanID, .string itemID⟩) w0).final).final
        = (handler o1
            (.object ⟨.string APIGWKeyID, .string usagePlanID, .string itemID⟩) w0).final ∧
      (∀ w ∈ (handler o2 (.object ⟨.string APIGWKeyID, .string usagePlanID, .string itemID⟩)
          (handler o1
              (.object ⟨.string APIGWKeyID, .string usagePlanID, .string itemID⟩) w0).final).states,
        w = (handler o1
            (.object ⟨.string APIGWKeyID, .string usagePlanID, .string itemID⟩) w0).final) ∧
      (handler o2 (.object ⟨.string APIGWKeyID, .string usagePlanID, .string itemID⟩)
          (handler o1
              (.object ⟨.string APIGWKeyID, .string usagePlanID, .string itemID⟩) w0).final).final.table
        = (handler o1
            (.object ⟨.string APIGWKeyID, .string usagePlanID, .string itemID⟩) w0).final.table) ∧
    (w0.apiGateway.notFoundOnDelete = false →
      o2.deleteFault = none → o2.bindFault = none → o2.updateFault = none →
      ∀ k2 v2, o2.createOutcome = .ok (k2, v2) →
        (Call.updateItem itemID k2 v2 o2.updateTime, true) ∈
          (handler o2 (.object ⟨.string APIGWKeyID, .string usagePlanID, .string itemID⟩)
            (handler o1
                (.object ⟨.string APIGWKeyID, .string usagePlanID, .string itemID⟩) w0).final).calls ∧
        (handler o2 (.object ⟨.string APIGWKeyID, .string usagePlanID, .string itemID⟩)
            (handler o1
                (.object ⟨.string APIGWKeyID, .string usagePlanID, .string itemID⟩) w0).final).final.currentKey
          itemID = some k2) := by
  have hall := all_succeed_of_update o1 APIGWKeyID usagePlanID itemID w0 h1 h2 h3 hfirst
  obtain ⟨g1, k, v, hd, hco, -, -, -, hfin⟩ :=
    handler_success o1 APIGWKeyID usagePlanID itemID w0 h1 h2 h3 hall
  have hne : k ≠ APIGWKeyID := hfresh k v hco
  have hgone := ApiGateway.hasKey_deleteApiKey _ _ _ _ hd
  have hflag : g1.notFoundOnDelete = w0.apiGateway.notFoundOnDelete := by
    unfold ApiGateway.deleteApiKey at hd
    cases hdf : o1.deleteFault with
    | some e => simp [hdf] at hd
    | none =>
      simp only [hdf] at hd
      split at hd
      · injection hd with hd; subst hd; rfl
      · split at hd
        · simp at hd
        · injection hd with hd; subst hd; rfl
  have hgone2 : (rotated w0 g1 usagePlanID itemID k v o1.updateTime).apiGateway.hasKey
      APIGWKeyID = false := by
    simp only [rotated, ApiGateway.hasKey, List.any_append] at hgone ⊢
    simp [hgone, hne]
  rw [hfin]
  obtain ⟨df, co, bf, uf, ut⟩ := o2
  constructor
  · intro hstrict
    have hdel2 : ∃ e, (rotated w0 g1 usagePlanID itemID k v o1.updateTime).apiGateway.deleteApiKey
        df APIGWKeyID = .error e := by
      unfold ApiGateway.deleteApiKey
      cases df with
      | some e => exact ⟨e, rfl⟩
      | none =>
        refine ⟨"Invalid API Key identifier specified", ?_⟩
        have hs : (rotated w0 g1 usagePlanID itemID k v o1.updateTime).apiGateway.notFoundOnDelete
            = true := by
          simp [rotated, hflag, hstrict]
        simp [hgone2, hs]
    obtain ⟨e, he⟩ := hdel2
    unfold handler
    simp only [JsValue.falsy, JsValue.asString, h1, h2, h3, decide_False, Bool.or_self,
      Bool.false_eq_true, if_false]
    simp [he, Call.isUpdateItem]
  · intro htol hdf hbf huf k2 v2 hco2
    simp only at hdf hbf huf hco2
    subst hdf hbf huf hco2
    have hs : (rotated w0 g1 usagePlanID itemID k v o1.updateTime).apiGateway.notFoundOnDelete
        = false := by
      simp [rotated, hflag, htol]
    have hdel2 : (rotated w0 g1 usagePlanID itemID k v o1.updateTime).apiGateway.deleteApiKey
        none APIGWKeyID = .ok (rotated w0 g1 usagePlanID itemID k v o1.updateTime).apiGateway := by
      unfold ApiGateway.deleteApiKey
      simp [hgone2, hs]
    unfold handler
    simp only [JsValue.falsy, JsValue.asString, h1, h2, h3, decide_False, Bool.or_self,
      Bool.false_eq_true, if_false]
    simp [hdel2, ApiGateway.createApiKey, ApiGateway.createUsagePlanKey, World.updateItem,
      World.currentKey_updateItem]

/-- Witness of C7 (amended): on the provisioned stack, with API Gateway's own
`DeleteApiKey`, the second run sends the failed delete only and leaves the world as the
first run left it; over the issuer for which deleting an absent key succeeds, the second
run writes the record again, which then holds `K3`. -/
theorem C7_second_run_witness :
    ((handler (Scenario.allSucceed "K3" "v3" "2024-03-01T00:00:05.000Z") Scenario.event
        (handler (Scenario.allSucceed "K2" "v2" "2024-03-01T00:00:00.000Z") Scenario.event
          Scenario.world).final).calls = [(Call.deleteApiKey "K1", false)] ∧
      (handler (Scenario.allSucceed "K3" "v3" "2024-03-01T00:00:05.000Z") Scenario.event
        (handler (Scenario.allSucceed "K2" "v2" "2024-03-01T00:00:00.000Z") Scenario.event
          Scenario.world).final).final =
        (handler (Scenario.allSucceed "K2" "v2" "2024-03-01T00:00:00.000Z") Scenario.event
          Scenario.world).final) ∧
    ((Call.updateItem "i1" "K3" "v3" "2024-03-01T00:00:05.000Z", true) ∈
        (handler (Scenario.allSucceed "K3" "v3" "2024-03-01T00:00:05.000Z") Scenario.event
          (handler (Scenario.allSucceed "K2" "v2" "2024-03-01T00:00:00.000Z") Scenario.event
            Scenario.tolerantWorld).final).calls ∧
      (handler (Scenario.allSucceed "K3" "v3" "2024-03-01T00:00:05.000Z") Scenario.event
        (handler (Scenario.allSucceed "K2" "v2" "2024-03-01T00:00:00.000Z") Scenario.event
          Scenario.tolerantWorld).final).final.currentKey "i1" = some "K3") :=
  ⟨⟨((C7_second_run (Scenario.allSucceed "K2" "v2" "2024-03-01T00:00:00.000Z")
        (Scenario.allSucceed "K3" "v3" "2024-03-01T00:00:05.000Z") "K1" "P1" "i1"
        Scenario.world (by decide) (by decide) (by decide)
        ⟨(Call.updateItem "i1" "K2" "v2" "2024-03-01T00:00:00.000Z", true),
          by decide, by decide⟩
        (by intro k v h; cases h; decide)).1 (by decide)).1,
     ((C7_second_run (Scenario.allSucceed "K2" "v2" "2024-03-01T00:00:00.000Z")
        (Scenario.allSucceed "K3" "v3" "2024-03-01T00:00:05.000Z") "K1" "P1" "i1"
        Scenario.world (by decide) (by decide) (by decide)
        ⟨(Call.updateItem "i1" "K2" "v2" "2024-03-01T00:00:00.000Z", true),
          by decide, by decide⟩
        (by intro k v h; cases h; decide)).1 (by decide)).2.2.2.1⟩,
   (C7_second_run (Scenario.allSucceed "K2" "v2" "2024-03-01T00:00:00.000Z")
      (Scenario.allSucceed "K3" "v3" "2024-03-01T00:00:05.000Z") "K1" "P1" "i1"
      Scenario.tolerantWorld (by decide) (by decide) (by decide)
      ⟨(Call.updateItem "i1" "K2" "v2" "2024-03-01T00:00:00.000Z", true),
        by decide, by decide⟩
      (by intro k v h; cases h; decide)).2 (by decide) rfl rfl rfl "K3" "v3" rfl⟩

end Rotation

/-! ## The scheduling handler -/

section Scheduling

open SchedulingLambda

theorem SchedulingLambda.payload_eq_ok (item : Item) (h : hasDispatchAttrs item = true) :
    payload item = .ok (eventOf item) := by
  unfold hasDispatchAttrs at h
  simp only [Bool.and_eq_true, Option.isSome_iff_exists] at h
  obtain ⟨⟨⟨a, ha⟩, ⟨u, hu⟩⟩, ⟨i, hi⟩⟩ := h
  simp [payload, eventOf, ha, hu, hi]

theorem SchedulingLambda.invoke_of_no_fault (w : World) (o : DispatchOracle)
    (event : RotationLambda.Event) (h : o.invokeFault = none) :
    ∃ r, invoke w o event =
      .ok (r, (RotationLambda.handler o.rotation (.object event) w).final) := by
  unfold invoke
  rw [h]
  simp only
  split
  · exact ⟨_, rfl⟩
  · exact ⟨_, rfl⟩

theorem SchedulingLambda.dateLt_thirtyDaysAgo (parseDate : String → Option Int) (now : Int)
    (item : Item) (v : AttributeValue) (h : Item.attr item "updateTime" = some v) :
    dateLt (timeValue parseDate v) (thirtyDaysAgo now) =
      olderThanThreshold parseDate now (30 * msPerDay) item := by
  unfold olderThanThreshold lastRotatedAt dateLt thirtyDaysAgo
  rw [h]
  simp only [Option.some_bind]
  cases timeValue parseDate v with
  | none => rfl
  | some t =>
    simp only [decide_eq_decide]
    constructor <;> intro h <;> linarith

theorem SchedulingLambda.filterItems_eq_filter (parseDate : String → Option Int) (now : Int)
    (items : List Item) (h : ∀ item ∈ items, (Item.attr item "updateTime").isSome = true) :
    filterItems parseDate (thirtyDaysAgo now) items =
      .ok (items.filter (olderThanThreshold parseDate now (30 * msPerDay))) := by
  induction items with
  | nil => rfl
  | cons item rest ih =>
    have hrest : ∀ it ∈ rest, (Item.attr it "updateTime").isSome = true :=
      fun it hit => h it (List.mem_cons_of_mem _ hit)
    obtain ⟨v, hv⟩ := Option.isSome_iff_exists.mp (h item (List.mem_cons_self _ _))
    simp only [filterItems, olderThan, hv, ih hrest,
      dateLt_thirtyDaysAgo parseDate now item v hv, List.filter_cons]

theorem SchedulingLambda.filterItems_error (parseDate : String → Option Int) (limit : Int)
    (items : List Item) (h : ∃ item ∈ items, Item.attr item "updateTime" = none) :
    filterItems parseDate limit items = .error typeErrorS := by
  induction items with
  | nil => simp at h
  | cons item rest ih =>
    cases hv : Item.attr item "updateTime" with
    | none => simp [filterItems, olderThan, hv]
    | some v =>
      have hrest : ∃ it ∈ rest, Item.attr it "updateTime" = none := by
        obtain ⟨it, hit, hnone⟩ := h
        rcases List.mem_cons.mp hit with rfl | hmem
        · rw [hv] at hnone; cases hnone
        · exact ⟨it, hmem, hnone⟩
      simp [filterItems, olderThan, hv, ih hrest]

theorem SchedulingLambda.dispatchLoop_result (dispatch : Nat → DispatchOracle)
    (items : List Item) : ∀ (n : Nat) (w : World),
    (dispatchLoop dispatch n items w).result = .ok () := by
  induction items with
  | nil => intro n w; rfl
  | cons item rest ih =>
    intro n w
    unfold dispatchLoop
    split
    · rfl
    · split
      · rfl
      · exact ih _ _

theorem SchedulingLambda.dispatchLoop_invoked (dispatch : Nat → DispatchOracle)
    (items : List Item) : ∀ (n k : Nat) (w : World),
    (∀ item ∈ items, hasDispatchAttrs item = true) →
    (∀ j, j < k → (dispatch (n + j)).invokeFault = none) →
    (items.length ≤ k →
      (dispatchLoop dispatch n items w).invoked = items.map eventOf ∧
      (dispatchLoop dispatch n items w).caught = none) ∧
    (k < items.length → ∀ e, (dispatch (n + k)).invokeFault = some e →
      (dispatchLoop dispatch n items w).invoked = (items.take (k + 1)).map eventOf ∧
      (dispatchLoop dispatch n items w).caught = some e) := by
  induction items with
  | nil =>
    intro n k w _ _
    exact ⟨fun _ => ⟨rfl, rfl⟩, fun h => absurd h (Nat.not_lt_zero _)⟩
  | cons item rest ih =>
    intro n k w hattrs hbefore
    have hp := payload_eq_ok item (hattrs item (List.mem_cons_self _ _))
    have hrest : ∀ it ∈ rest, hasDispatchAttrs it = true :=
      fun it hit => hattrs it (List.mem_cons_of_mem _ hit)
    cases k with
    | zero =>
      refine ⟨fun h => by simp at h, fun _ e he => ?_⟩
      have hinv : invoke w (dispatch n) (eventOf item) = .error e := by
        simp only [Nat.add_zero] at he
        simp [invoke, he]
      simp [dispatchLoop, hp, hinv]
    | succ k =>
      have h0 : (dispatch n).invokeFault = none := by
        simpa using hbefore 0 (Nat.succ_pos k)
      obtain ⟨r, hinv⟩ := invoke_of_no_fault w (dispatch n) (eventOf item) h0
      have hb : ∀ j, j < k → (dispatch (n + 1 + j)).invokeFault = none := by
        intro j hj
        have := hbefore (j + 1) (Nat.succ_lt_succ hj)
        rwa [show n + (j + 1) = n + 1 + j by omega] at this
      have hrec := ih (n + 1) k
        (RotationLambda.handler (dispatch n).rotation (.object (eventOf item)) w).final hrest hb
      constructor
      · intro hlen
        have hlen2 : rest.length ≤ k := by simpa using hlen
        obtain ⟨hi, hc⟩ := hrec.1 hlen2
        simp [dispatchLoop, hp, hinv, hi, hc]
      · intro hlt e he
        have hlt2 : k < rest.length := by simpa using hlt
        have he2 : (dispatch (n + 1 + k)).invokeFault = some e := by
          rwa [show n + (k + 1) = n + 1 + k by omega] at he
        obtain ⟨hi, hc⟩ := hrec.2 hlt2 e he2
        simp [dispatchLoop, hp, hinv, hi, hc]

/-- Counterexample to C3: the record of `i1` was last rotated on 2024-01-01 and the sweep
runs on 2024-01-31 at the same time of day, so the record's age is exactly 30 days; no
rotation is dispatched. -/
theorem C3_counterexample :
    lastRotatedAt Scenario.parseDate (Scenario.record "K1" "v1" "2024-01-01T00:00:00.000Z")
      = some 1704067200000 ∧
    (1706659200000 : Int) - 1704067200000 = 30 * msPerDay ∧
    (handler Scenario.parseDate (Scenario.sweep 1706659200000 Scenario.world Scenario.dispatchOk)
      Scenario.world).invoked = [] := by
  decide

/-- C3, amended: the comparison is strict.  For a scan result whose records all carry a
valid timestamp (and the three attributes the dispatch reads), with no `Invoke` call
failing, the rotations dispatched are, in scan order, those of exactly the records with
`now - lastRotatedAt > 30 days`; a record whose age is exactly 30 days is not
dispatched. -/
theorem C3_dispatches_strictly_older (parseDate : String → Option Int) (o : Oracle)
    (w0 : World) (items : List Item)
    (hscan : o.scanOutcome = .ok (some items))
    (htime : ∀ item ∈ items, (lastRotatedAt parseDate item).isSome = true)
    (hattrs : ∀ item ∈ items, hasDispatchAttrs item = true)
    (hinvoke : ∀ n, (o.dispatch n).invokeFault = none) :
    (handler parseDate o w0).invoked =
      (items.filter (olderThanThreshold parseDate o.now (30 * msPerDay))).map eventOf ∧
    (∀ item ∈ items, ∀ t, lastRotatedAt parseDate item = some t →
      (olderThanThreshold parseDate o.now (30 * msPerDay) item = true ↔
        30 * msPerDay < o.now - t)) := by
  refine ⟨?_, fun item _ t ht => by simp [olderThanThreshold, ht]⟩
  have hattr : ∀ item ∈ items, (Item.attr item "updateTime").isSome = true := by
    intro item hitem
    have := htime item hitem
    unfold lastRotatedAt at this
    cases hv : Item.attr item "updateTime" with
    | none => simp [hv] at this
    | some v => rfl
  have hfilter := filterItems_eq_filter parseDate o.now items hattr
  have hstale : ∀ item ∈ items.filter (olderThanThreshold parseDate o.now (30 * msPerDay)),
      hasDispatchAttrs item = true :=
    fun item hitem => hattrs item (List.mem_of_mem_filter hitem)
  have hloop := (dispatchLoop_invoked o.dispatch
    (items.filter (olderThanThreshold parseDate o.now (30 * msPerDay))) 0
    (items.filter (olderThanThreshold parseDate o.now (30 * msPerDay))).length w0 hstale
    (fun j _ => hinvoke (0 + j))).1 (Nat.le_refl _)
  unfold handler
  simp only [hscan, hfilter]
  split
  · exact hloop.1
  · rename_i hlen
    have hnil : items.filter (olderThanThreshold parseDate o.now (30 * msPerDay)) = [] := by
      apply List.eq_nil_of_length_eq_zero
      omega
    rw [hnil]
    rfl

/-- Witness of C3 (amended): a sweep on 2024-03-01 over a record last rotated on 2024-01-01
and one last rotated on 2024-02-20. -/
theorem C3_dispatches_strictly_older_witness :
    (handler Scenario.parseDate
        (Scenario.sweep 1709251200000 Scenario.oldAndRecent Scenario.dispatchOk)
        Scenario.oldAndRecent).invoked =
      (Scenario.oldAndRecent.table.filter
        (olderThanThreshold Scenario.parseDate
          (Scenario.sweep 1709251200000 Scenario.oldAndRecent Scenario.dispatchOk).now
          (30 * msPerDay))).map eventOf ∧
    (∀ item ∈ Scenario.oldAndRecent.table, ∀ t,
      lastRotatedAt Scenario.parseDate item = some t →
      (olderThanThreshold Scenario.parseDate
          (Scenario.sweep 1709251200000 Scenario.oldAndRecent Scenario.dispatchOk).now
          (30 * msPerDay) item = true ↔
        30 * msPerDay <
          (Scenario.sweep 1709251200000 Scenario.oldAndRecent Scenario.dispatchOk).now - t)) ∧
    (handler Scenario.parseDate
        (Scenario.sweep 1709251200000 Scenario.oldAndRecent Scenario.dispatchOk)
        Scenario.oldAndRecent).invoked =
      [{ APIGWKeyID := .string "K1", usagePlanID := .string "P1", itemID := .string "i1" }] :=
  ⟨(C3_dispatches_strictly_older Scenario.parseDate
    (Scenario.sweep 1709251200000 Scenario.oldAndRecent Scenario.dispatchOk)
    Scenario.oldAndRecent Scenario.oldAndRecent.table rfl (by decide) (by decide)
    (fun _ => rfl)).1,
   (C3_dispatches_strictly_older Scenario.parseDate
    (Scenario.sweep 1709251200000 Scenario.oldAndRecent Scenario.dispatchOk)
    Scenario.oldAndRecent Scenario.oldAndRecent.table rfl (by decide) (by decide)
    (fun _ => rfl)).2, by decide⟩

/-- Counterexample to C4: two records, both older than 30 days, and the `Invoke` call for
the first one throws.  The loop is left through the `catch` block: the only
`InvokeCommand` sent is the first record's, and none is sent for the second. -/
theorem C4_counterexample :
    filterItems Scenario.parseDate (thirtyDaysAgo 1709251200000) Scenario.twoRecords.table
      = .ok [Scenario.recordOf "i1" "K1" "v1" "2024-01-01T00:00:00.000Z",
             Scenario.recordOf "i2" "K2" "v2" "2024-01-01T00:00:00.000Z"] ∧
    (handler Scenario.parseDate
        (Scenario.sweep 1709251200000 Scenario.twoRecords Scenario.firstInvokeThrows)
        Scenario.twoRecords).invoked =
      [{ APIGWKeyID := .string "K1", usagePlanID := .string "P1", itemID := .string "i1" }] ∧
    (handler Scenario.parseDate
        (Scenario.sweep 1709251200000 Scenario.twoRecords Scenario.firstInvokeThrows)
        Scenario.twoRecords).caught = some "TooManyRequestsException" := by
  refine ⟨rfl, by decide, by decide⟩

/-- C4, amended: the loop has no error handling of its own.  Over the stale records
`stale` of a scan (each with the three attributes the dispatch reads): a rotation
that fails inside the rotation function does not stop the sweep, since as long as no
`Invoke` call throws, every stale record is dispatched whatever the rotation runs did;
but when the `Invoke` call of the record at position `k` throws, the records up
to and including position `k` are the only ones dispatched, the error is caught and
logged, and the handler completes. -/
theorem C4_dispatch_stops_at_first_throw (parseDate : String → Option Int) (o : Oracle)
    (w0 : World) (items stale : List Item) (k : Nat)
    (hscan : o.scanOutcome = .ok (some items))
    (hfilter : filterItems parseDate (thirtyDaysAgo o.now) items = .ok stale)
    (hattrs : ∀ item ∈ stale, hasDispatchAttrs item = true)
    (hbefore : ∀ j, j < k → (o.dispatch j).invokeFault = none) :
    (stale.length ≤ k →
      (handler parseDate o w0).invoked = stale.map eventOf ∧
      (handler parseDate o w0).caught = none) ∧
    (k < stale.length → ∀ e, (o.dispatch k).invokeFault = some e →
      (handler parseDate o w0).invoked = (stale.take (k + 1)).map eventOf ∧
      (handler parseDate o w0).caught = some e ∧
      (handler parseDate o w0).result = .ok ()) := by
  have hloop := dispatchLoop_invoked o.dispatch stale 0 k w0 hattrs
    (fun j hj => by simpa using hbefore j hj)
  have hres := dispatchLoop_result o.dispatch stale 0 w0
  unfold handler
  simp only [hscan, hfilter]
  split
  · refine ⟨hloop.1, fun hlt e he => ?_⟩
    obtain ⟨hi, hc⟩ := hloop.2 hlt e (by simpa using he)
    exact ⟨hi, hc, hres⟩
  · rename_i hlen
    have hnil : stale = [] := by
      apply List.eq_nil_of_length_eq_zero
      omega
    subst hnil
    exact ⟨fun _ => ⟨rfl, rfl⟩, fun h => absurd h (Nat.not_lt_zero _)⟩

/-- Witness of C4 (amended): the first rotation fails inside the rotation function, no
`Invoke` call throws, and both stale records are dispatched. -/
theorem C4_dispatch_stops_at_first_throw_witness :
    (RotationLambda.handler (Scenario.firstRotationFails 0).rotation
        (.object ⟨.string "K1", .string "P1", .string "i1"⟩) Scenario.twoRecords).result =
      .error (RotationLambda.rotationFailed "LimitExceededException") ∧
    (handler Scenario.parseDate
        (Scenario.sweep 1709251200000 Scenario.twoRecords Scenario.firstRotationFails)
        Scenario.twoRecords).invoked = Scenario.twoRecords.table.map eventOf ∧
    (handler Scenario.parseDate
        (Scenario.sweep 1709251200000 Scenario.twoRecords Scenario.firstRotationFails)
        Scenario.twoRecords).caught = none :=
  ⟨rfl, (C4_dispatch_stops_at_first_throw Scenario.parseDate
    (Scenario.sweep 1709251200000 Scenario.twoRecords Scenario.firstRotationFails)
    Scenario.twoRecords Scenario.twoRecords.table Scenario.twoRecords.table 2 rfl rfl
    (by decide) (fun _ _ => rfl)).1 (by decide)⟩

/-- Counterexample to C8: the scan fails and the handler completes successfully. -/
theorem C8_counterexample :
    Scenario.scanFails.scanOutcome = .error "ProvisionedThroughputExceededException" ∧
    (handler Scenario.parseDate Scenario.scanFails Scenario.world).result = .ok () :=
  ⟨rfl, rfl⟩

/-- C8, amended: when the scan fails, the error is caught and logged by the handler's
`catch` block, which does not rethrow: the handler completes successfully (no error
reaches the trigger), no rotation is dispatched and the world is left as it was. -/
theorem C8_scan_failure_is_swallowed (parseDate : String → Option Int) (o : Oracle)
    (w0 : World) (e : String) (hscan : o.scanOutcome = .error e) :
    (handler parseDate o w0).result = .ok () ∧
    (handler parseDate o w0).caught = some e ∧
    (handler parseDate o w0).invoked = [] ∧
    (handler parseDate o w0).final = w0 := by
  unfold handler
  simp [hscan]

/-- Witness of C8 (amended). -/
theorem C8_scan_failure_is_swallowed_witness :
    (handler Scenario.parseDate Scenario.scanFails Scenario.world).result = .ok () ∧
    (handler Scenario.parseDate Scenario.scanFails Scenario.world).caught
      = some "ProvisionedThroughputExceededException" ∧
    (handler Scenario.parseDate Scenario.scanFails Scenario.world).invoked = [] ∧
    (handler Scenario.parseDate Scenario.scanFails Scenario.world).final = Scenario.world :=
  C8_scan_failure_is_swallowed Scenario.parseDate Scenario.scanFails Scenario.world
    "ProvisionedThroughputExceededException" rfl

/-- C10: when at least one record of the scan result has no `updateTime` attribute, the
filter throws before any dispatch: no rotation is dispatched at all (not even for the
records of the scan that are older than 30 days), the world is left as it was, and the
handler completes without signalling an error (the `TypeError` is caught and logged). -/
theorem C10_missing_updateTime_stops_sweep (parseDate : String → Option Int) (o : Oracle)
    (w0 : World) (items : List Item)
    (hscan : o.scanOutcome = .ok (some items))
    (hmissing : ∃ item ∈ items, Item.attr item "updateTime" = none) :
    (handler parseDate o w0).invoked = [] ∧
    (handler parseDate o w0).result = .ok () ∧
    (handler parseDate o w0).caught = some typeErrorS ∧
    (handler parseDate o w0).final = w0 := by
  have hfilter := filterItems_error parseDate (thirtyDaysAgo o.now) items hmissing
  unfold handler
  simp [hscan, hfilter]

/-- Witness of C10: a sweep on 2024-03-01 over the record of `i1`, last rotated on
2024-01-01, and a record of `i2` without `updateTime`. -/
theorem C10_missing_updateTime_stops_sweep_witness :
    olderThanThreshold Scenario.parseDate 1709251200000 (30 * msPerDay)
      (Scenario.recordOf "i1" "K1" "v1" "2024-01-01T00:00:00.000Z") = true ∧
    (handler Scenario.parseDate
        (Scenario.sweep 1709251200000 Scenario.oneWithoutTime Scenario.dispatchOk)
        Scenario.oneWithoutTime).invoked = [] ∧
    (handler Scenario.parseDate
        (Scenario.sweep 1709251200000 Scenario.oneWithoutTime Scenario.dispatchOk)
        Scenario.oneWithoutTime).result = .ok () ∧
    (handler Scenario.parseDate
        (Scenario.sweep 1709251200000 Scenario.oneWithoutTime Scenario.dispatchOk)
        Scenario.oneWithoutTime).caught = some typeErrorS ∧
    (handler Scenario.parseDate
        (Scenario.sweep 1709251200000 Scenario.oneWithoutTime Scenario.dispatchOk)
        Scenario.oneWithoutTime).final = Scenario.oneWithoutTime :=
  ⟨by decide, C10_missing_updateTime_stops_sweep Scenario.parseDate
    (Scenario.sweep 1709251200000 Scenario.oneWithoutTime Scenario.dispatchOk)
    Scenario.oneWithoutTime Scenario.oneWithoutTime.table rfl
    ⟨Scenario.recordWithoutTime "i2" "K2" "v2", by decide, by decide⟩⟩

end Scheduling

end KeyRotation
